import Mathlib

/-!
Verification of the aflib attribute-exchange header (`aflib.h`) of the
AferoCE am335x-binaries-generic repository.

The repository ships only the header: the declarations, enums and structs
below are embedded directly from `src/debug/usr/include/aflib.h`.  The
bodies of the declared functions (`aflib_profile_load`,
`aflib_profile_find_attribute`, `aflib_set_attribute_*`) are not in the
repository; those are modelled from the spec and from the header's own
documentation comments, and each such definition carries a doc comment
saying so.

Machine integers (`uint16_t`, ...) are modelled as `Nat` with explicit
`< 2^16` bounds where they matter; C pointers that may be `NULL` are
modelled as `Option`.
-/

/-- From `aflib.h`: `#define MAX_ATTRIBUTE_SIZE 255`.  "API will not accept
attribute values larger than this". -/
def MAX_ATTRIBUTE_SIZE : Nat := 255

/-- From `aflib.h`: the `af_status_t` enum.  `AF_SUCCESS = 0` and the six
error codes; the commented-out codes of the C enum are not members. -/
inductive af_status_t where
  | AF_SUCCESS
  | AF_ERROR_INVALID_PARAM
  | AF_ERROR_UNAVAILABLE
  | AF_ERROR_FILE_NOT_FOUND
  | AF_ERROR_PROFILE_CORRUPTED
  | AF_ERROR_PROFILE_TOO_BIG
  | AF_ERROR_PROFILE_TOO_NEW
deriving DecidableEq, Repr

open af_status_t

/-- The integer value each `af_status_t` enumerator has in `aflib.h`. -/
def af_status_t.toInt : af_status_t → Int
  | AF_SUCCESS => 0
  | AF_ERROR_INVALID_PARAM => -6
  | AF_ERROR_UNAVAILABLE => -7
  | AF_ERROR_FILE_NOT_FOUND => -21
  | AF_ERROR_PROFILE_CORRUPTED => -22
  | AF_ERROR_PROFILE_TOO_BIG => -23
  | AF_ERROR_PROFILE_TOO_NEW => -24

/-- From `aflib.h`: `enum af_attribute_type`, member `ATTR_TYPE_BOOLEAN = 1`. -/
def ATTR_TYPE_BOOLEAN : Nat := 1

/-- From `aflib.h`: `ATTR_TYPE_SINT8 = 2`. -/
def ATTR_TYPE_SINT8 : Nat := 2

/-- From `aflib.h`: `ATTR_TYPE_SINT16 = 3`. -/
def ATTR_TYPE_SINT16 : Nat := 3

/-- From `aflib.h`: `ATTR_TYPE_SINT32 = 4`. -/
def ATTR_TYPE_SINT32 : Nat := 4

/-- From `aflib.h`: `ATTR_TYPE_SINT64 = 5`. -/
def ATTR_TYPE_SINT64 : Nat := 5

/-- From `aflib.h`: `ATTR_TYPE_FIXED_16_16 = 6`. -/
def ATTR_TYPE_FIXED_16_16 : Nat := 6

/-- From `aflib.h`: `ATTR_TYPE_FIXED_32_32 = 7`. -/
def ATTR_TYPE_FIXED_32_32 : Nat := 7

/-- From `aflib.h`: `ATTR_TYPE_UTF8S = 20`. -/
def ATTR_TYPE_UTF8S : Nat := 20

/-- From `aflib.h`: `ATTR_TYPE_BYTES = 21`. -/
def ATTR_TYPE_BYTES : Nat := 21

/-- The members of `enum af_attribute_type` in `aflib.h`, in declaration
order. -/
def af_attribute_type_values : List Nat :=
  [ATTR_TYPE_BOOLEAN, ATTR_TYPE_SINT8, ATTR_TYPE_SINT16, ATTR_TYPE_SINT32,
   ATTR_TYPE_SINT64, ATTR_TYPE_FIXED_16_16, ATTR_TYPE_FIXED_32_32,
   ATTR_TYPE_UTF8S, ATTR_TYPE_BYTES]

/-- From `aflib.h`: `ATTR_FLAG_READ = 0x0001`. -/
def ATTR_FLAG_READ : Nat := 0x0001

/-- From `aflib.h`: `ATTR_FLAG_READ_NOTIFY = 0x0002`. -/
def ATTR_FLAG_READ_NOTIFY : Nat := 0x0002

/-- From `aflib.h`: `ATTR_FLAG_WRITE = 0x0004`. -/
def ATTR_FLAG_WRITE : Nat := 0x0004

/-- From `aflib.h`: `ATTR_FLAG_WRITE_NOTIFY = 0x0008`. -/
def ATTR_FLAG_WRITE_NOTIFY : Nat := 0x0008

/-- From `aflib.h`: `ATTR_FLAG_HAS_DEFAULT = 0x0010`. -/
def ATTR_FLAG_HAS_DEFAULT : Nat := 0x0010

/-- From `aflib.h`: `ATTR_FLAG_LATCH = 0x0020`. -/
def ATTR_FLAG_LATCH : Nat := 0x0020

/-- From `aflib.h`: `ATTR_FLAG_MCU_HIDE = 0x0040`. -/
def ATTR_FLAG_MCU_HIDE : Nat := 0x0040

/-- From `aflib.h`: `ATTR_FLAG_PASS_THROUGH = 0x0080`. -/
def ATTR_FLAG_PASS_THROUGH : Nat := 0x0080

/-- From `aflib.h`: `ATTR_FLAG_STORE_IN_FLASH = 0x0100`. -/
def ATTR_FLAG_STORE_IN_FLASH : Nat := 0x0100

/-- From `aflib.h`: `af_attribute_t`, the attribute description record of a
profile.  The C struct has exactly the five fields `attr_id`, `type`,
`flags`, `max_length` (all `uint16_t`) and the opaque pointer `user_data`
(`void *`, `NULL` by default).  `uint16_t` fields are `Nat` (bounded by
`2^16` where it matters); `void *` is `Option Nat`, `none` standing for
`NULL`. -/
structure af_attribute_t where
  attr_id : Nat
  type : Nat
  flags : Nat
  max_length : Nat
  user_data : Option Nat
deriving DecidableEq, Repr

/-- From `aflib.h`: `af_profile_t`, "the list of attributes and their id,
type, and flags": an `attribute_count` (`uint16_t`) and the `attributes`
array, modelled as a list. -/
structure af_profile_t where
  attribute_count : Nat
  attributes : List af_attribute_t
deriving DecidableEq, Repr

/-- The tuple of all fields of an `af_attribute_t` record, in declaration
order.  Used to state what information an attribute record carries. -/
def af_attribute_fields (a : af_attribute_t) :
    Nat × Nat × Nat × Nat × Option Nat :=
  (a.attr_id, a.type, a.flags, a.max_length, a.user_data)

/-- Modelled from the spec: the body of `aflib_profile_find_attribute` is
not in the repository (the header only declares it).  Per the header,
"find the attribute description from a profile, given the attribute id.
returns `NULL` if no attribute has that id": a linear search of the
profile's attribute array keyed by `attr_id`, returning `none` for the C
function's `NULL` result. -/
def aflib_profile_find_attribute (profile : af_profile_t) (attr_id : Nat) :
    Option af_attribute_t :=
  profile.attributes.find? (fun a => a.attr_id == attr_id)

/-- Modelled from the spec: the C function takes a pointer to the profile
and returns a pointer into its attribute array without writing anything.
This wrapper makes the store state explicit: the call returns the lookup
result together with the profile state after the call. -/
def aflib_profile_find_attribute_call (profile : af_profile_t)
    (attr_id : Nat) : Option af_attribute_t × af_profile_t :=
  (aflib_profile_find_attribute profile attr_id, profile)

/-- Modelled from the spec: one attribute record as stored in the binary
profile file.  The wire encoding itself is out of scope ("the undocumented
wire format" is a non-goal of the spec), so a file record is modelled
structurally as the four numeric fields a loaded attribute gets; the
numbers are raw and may be out of range in a corrupted file. -/
structure af_profile_record where
  attr_id : Nat
  type : Nat
  flags : Nat
  max_length : Nat
deriving DecidableEq, Repr

/-- Modelled from the spec: the contents of a binary profile file: a format
version and the list of attribute records. -/
structure af_profile_file where
  version : Nat
  records : List af_profile_record
deriving DecidableEq, Repr

/-- Modelled from the spec: the newest profile-file format version this
library understands; a newer file is rejected as `AF_ERROR_PROFILE_TOO_NEW`. -/
def aflib_profile_supported_version : Nat := 1

/-- Modelled from the spec: the "standard profile file location" used by
`aflib_profile_load` when `filename` is `NULL`. -/
def aflib_standard_profile_path : String := "/etc/hub/profile.bin"

/-- Modelled from the spec: a file record is well formed when its four
numeric fields fit in `uint16_t` and its type is a member of
`enum af_attribute_type` (the header says the `type` field is "from
af_attribute_type"). -/
def record_wf (r : af_profile_record) : Bool :=
  decide (r.attr_id < 2^16) && decide (r.type < 2^16) &&
  decide (r.flags < 2^16) && decide (r.max_length < 2^16) &&
  af_attribute_type_values.contains r.type

/-- Modelled from the spec: the attribute description a well-formed file
record loads to.  `user_data` is "NULL by default". -/
def record_to_attribute (r : af_profile_record) : af_attribute_t :=
  { attr_id := r.attr_id, type := r.type, flags := r.flags,
    max_length := r.max_length, user_data := none }

/-- Modelled from the spec: the body of `aflib_profile_load` is not in the
repository (the header only declares it).  The filesystem is a map from
file names to profile-file contents (`none` = no such file); `filename` is
`Option String`, `none` standing for the C `NULL`, in which case the
standard profile file location is used, per the header.  The result pairs
the returned `af_status_t` with the profile written to the out-parameter
(`some` exactly on success).  Per the header's failure taxonomy: a missing
file is `AF_ERROR_FILE_NOT_FOUND`; a file of a newer format version than
supported is `AF_ERROR_PROFILE_TOO_NEW`; a file whose attribute count
cannot fit the `uint16_t` `attribute_count` is `AF_ERROR_PROFILE_TOO_BIG`;
a file with a malformed record is `AF_ERROR_PROFILE_CORRUPTED`; otherwise
`AF_SUCCESS` with the decoded record array. -/
def aflib_profile_load (fs : String → Option af_profile_file)
    (filename : Option String) : af_status_t × Option af_profile_t :=
  match fs (filename.getD aflib_standard_profile_path) with
  | none => (AF_ERROR_FILE_NOT_FOUND, none)
  | some file =>
    if aflib_profile_supported_version < file.version then
      (AF_ERROR_PROFILE_TOO_NEW, none)
    else if 2^16 ≤ file.records.length then
      (AF_ERROR_PROFILE_TOO_BIG, none)
    else if file.records.all record_wf then
      (AF_SUCCESS, some { attribute_count := file.records.length,
                          attributes := file.records.map record_to_attribute })
    else
      (AF_ERROR_PROFILE_CORRUPTED, none)

/-- Modelled from the spec: the body of `aflib_set_attribute_bytes` is not
in the repository.  Per the header, the API "will not accept attribute
values larger than" `MAX_ATTRIBUTE_SIZE`, so an oversized value is rejected
as a bad input parameter; otherwise the request is forwarded to hubby,
which succeeds when hubby is available (`connected`) and is
`AF_ERROR_UNAVAILABLE` otherwise. -/
def aflib_set_attribute_bytes (connected : Bool) (attr_id : Nat)
    (value_len : Nat) (value : List Nat) : af_status_t :=
  if MAX_ATTRIBUTE_SIZE < value_len then AF_ERROR_INVALID_PARAM
  else if connected then AF_SUCCESS
  else AF_ERROR_UNAVAILABLE

/-- Modelled from the spec: `aflib_set_attribute_str` is a convenience
variant of `aflib_set_attribute_bytes` over a `const char *`; the string is
passed as its character bytes. -/
def aflib_set_attribute_str (connected : Bool) (attr_id : Nat)
    (value_len : Nat) (value : String) : af_status_t :=
  aflib_set_attribute_bytes connected attr_id value_len
    (value.data.map Char.toNat)

/-- Modelled from the spec: the body of `aflib_get_attribute` is not in the
repository.  Per the header, it requests the current value of an attribute
and the result is sent back via the notify callback as an
(attr_id, value) notification.  Hubby "owns attribute state", modelled as a
store from attribute id to current value bytes.  The attribute is
identified solely by the `const uint16_t attr_id` parameter, so the store
is consulted at the id reduced to 16 bits, exactly as the C parameter type
truncates it.  The result pairs the returned status with the notification
hubby sends back when it is available. -/
def aflib_get_attribute (connected : Bool)
    (store : Nat → Option (List Nat)) (attr_id : Nat) :
    af_status_t × Option (Nat × List Nat) :=
  if connected then
    (AF_SUCCESS, (store (attr_id % 2^16)).map (fun v => (attr_id % 2^16, v)))
  else (AF_ERROR_UNAVAILABLE, none)

/-- Modelled from the spec: the set request an `aflib_set_attribute_*`
entry point forwards to hubby when it accepts the value.  Every set
prototype declares its attribute parameter as `const uint16_t attr_id`, so
the request names the attribute solely by the id reduced to 16 bits,
paired with the value bytes. -/
def aflib_set_attribute_request (attr_id : Nat) (value : List Nat) :
    Nat × List Nat :=
  (attr_id % 2^16, value)

/-! Concrete data used by witnesses. -/

/-- A filesystem with no files at all. -/
def fs_empty : String → Option af_profile_file := fun _ => none

/-- A concrete well-formed profile file with two records. -/
def demo_file : af_profile_file :=
  { version := 1,
    records := [ { attr_id := 1, type := ATTR_TYPE_BOOLEAN, flags := ATTR_FLAG_READ,
                   max_length := 1 },
                 { attr_id := 1024, type := ATTR_TYPE_UTF8S,
                   flags := ATTR_FLAG_READ + ATTR_FLAG_WRITE, max_length := 64 } ] }

/-- A filesystem holding `demo_file` at the standard profile location. -/
def fs_demo : String → Option af_profile_file := fun s =>
  if s = aflib_standard_profile_path then some demo_file else none

/-- The profile `aflib_profile_load` produces from `demo_file`. -/
def demo_profile : af_profile_t :=
  { attribute_count := 2,
    attributes := [ { attr_id := 1, type := ATTR_TYPE_BOOLEAN,
                      flags := ATTR_FLAG_READ, max_length := 1, user_data := none },
                    { attr_id := 1024, type := ATTR_TYPE_UTF8S,
                      flags := ATTR_FLAG_READ + ATTR_FLAG_WRITE, max_length := 64,
                      user_data := none } ] }

/-- A concrete hubby attribute store holding one attribute, id 1. -/
def demo_store : Nat → Option (List Nat) := fun i =>
  if i = 1 then some [1] else none

/-! Helper lemmas shared by the claim theorems. -/

/-- Inversion of a successful load: the loaded profile comes from decoding
the well-formed record list of the file found at the requested path. -/
theorem aflib_profile_load_some_inv (fs : String → Option af_profile_file)
    (filename : Option String) (p : af_profile_t)
    (h : (aflib_profile_load fs filename).2 = some p) :
    ∃ file, fs (filename.getD aflib_standard_profile_path) = some file ∧
      file.version ≤ aflib_profile_supported_version ∧
      file.records.length < 2^16 ∧
      file.records.all record_wf = true ∧
      p = { attribute_count := file.records.length,
            attributes := file.records.map record_to_attribute } := by
  unfold aflib_profile_load at h
  split at h
  · simp at h
  · rename_i file hfs
    split at h
    · simp at h
    · rename_i h1
      split at h
      · simp at h
      · rename_i h2
        split at h
        · rename_i h3
          refine ⟨file, hfs, Nat.le_of_not_lt h1, Nat.lt_of_not_le h2, by simpa using h3, ?_⟩
          simpa using h.symm
        · simp at h

/-- A well-formed record decodes to an attribute with in-range fields and a
declared type. -/
theorem record_wf_spec (r : af_profile_record) (h : record_wf r = true) :
    r.attr_id < 2^16 ∧ r.type < 2^16 ∧ r.flags < 2^16 ∧
    r.max_length < 2^16 ∧ r.type ∈ af_attribute_type_values := by
  unfold record_wf at h
  simp only [Bool.and_eq_true, decide_eq_true_eq] at h
  exact ⟨h.1.1.1.1, h.1.1.1.2, h.1.1.2, h.1.2, List.elem_iff.mp h.2⟩

/-- Success of a load is the same as the out-parameter being populated. -/
theorem aflib_profile_load_success_iff_some
    (fs : String → Option af_profile_file) (filename : Option String) :
    (aflib_profile_load fs filename).1 = AF_SUCCESS ↔
      (aflib_profile_load fs filename).2 ≠ none := by
  unfold aflib_profile_load
  split
  · simp
  · split
    · simp
    · split
      · simp
      · split <;> simp

/-! The claim theorems. -/

/-- C1: `aflib_profile_find_attribute profile attr_id` returns `NULL`
(`none`) if and only if no attribute in the profile has that id, and a
non-`NULL` result is an attribute whose `attr_id` field equals the queried
id. -/
theorem C1_find_attribute_correct (p : af_profile_t) (i : Nat) :
    (aflib_profile_find_attribute p i = none ↔
      ∀ a ∈ p.attributes, a.attr_id ≠ i) ∧
    (∀ a, aflib_profile_find_attribute p i = some a → a.attr_id = i) := by
  constructor
  · unfold aflib_profile_find_attribute
    rw [List.find?_eq_none]
    constructor
    · intro hnone a ha
      simpa using hnone a ha
    · intro hne a ha
      simpa using hne a ha
  · intro a h
    simpa using List.find?_some h

/-- Witness for C1 on a concrete profile: id 7 is absent, and the lookup of
id 1024 yields an attribute whose `attr_id` is 1024. -/
theorem C1_find_attribute_correct_witness :
    aflib_profile_find_attribute demo_profile 7 = none ∧
    ({ attr_id := 1024, type := ATTR_TYPE_UTF8S,
       flags := ATTR_FLAG_READ + ATTR_FLAG_WRITE, max_length := 64,
       user_data := none } : af_attribute_t).attr_id = 1024 :=
  ⟨(C1_find_attribute_correct demo_profile 7).1.mpr (by decide),
   (C1_find_attribute_correct demo_profile 1024).2 _ (by decide)⟩

/-- C2 counterexample: loading a missing file returns
`AF_ERROR_FILE_NOT_FOUND`, a profile-read failure code of the header's
taxonomy that the claim's list (success / corrupted / too-big / too-new)
omits. -/
theorem C2_load_status_counterexample :
    (aflib_profile_load fs_empty (some "profile.bin")).1 =
      AF_ERROR_FILE_NOT_FOUND ∧
    AF_ERROR_FILE_NOT_FOUND ∉
      [AF_SUCCESS, AF_ERROR_PROFILE_CORRUPTED, AF_ERROR_PROFILE_TOO_BIG,
       AF_ERROR_PROFILE_TOO_NEW] := by
  constructor
  · rfl
  · decide

/-- C2 (amended): every status `aflib_profile_load` returns is `AF_SUCCESS`
or one of the four profile-read failure codes of the header's taxonomy:
`AF_ERROR_FILE_NOT_FOUND`, `AF_ERROR_PROFILE_TOO_NEW`,
`AF_ERROR_PROFILE_TOO_BIG`, `AF_ERROR_PROFILE_CORRUPTED`; no other status is
returned from loading a profile. -/
theorem C2_load_status_amended (fs : String → Option af_profile_file)
    (filename : Option String) :
    (aflib_profile_load fs filename).1 ∈
      [AF_SUCCESS, AF_ERROR_FILE_NOT_FOUND, AF_ERROR_PROFILE_TOO_NEW,
       AF_ERROR_PROFILE_TOO_BIG, AF_ERROR_PROFILE_CORRUPTED] := by
  unfold aflib_profile_load
  split
  · simp
  · split
    · simp
    · split
      · simp
      · split <;> simp

/-- C3: a successfully loaded profile is an array of fixed-shape attribute
records: `attributes` holds exactly `attribute_count` records, and
`aflib_profile_find_attribute` answers lookups over that array keyed by
`attr_id` (a hit is a member of the array with the queried id; a miss means
no member has the id). -/
theorem C3_profile_record_array (fs : String → Option af_profile_file)
    (filename : Option String) (p : af_profile_t)
    (h : (aflib_profile_load fs filename).2 = some p) :
    p.attributes.length = p.attribute_count ∧
    (∀ i a, aflib_profile_find_attribute p i = some a →
      a ∈ p.attributes ∧ a.attr_id = i) ∧
    (∀ i, aflib_profile_find_attribute p i = none →
      ∀ a ∈ p.attributes, a.attr_id ≠ i) := by
  obtain ⟨file, -, -, -, -, rfl⟩ := aflib_profile_load_some_inv fs filename p h
  refine ⟨by simp, ?_, ?_⟩
  · intro i a hfind
    exact ⟨List.mem_of_find?_eq_some hfind, by simpa using List.find?_some hfind⟩
  · intro i hnone a ha
    have := List.find?_eq_none.mp hnone a ha
    simpa using this

/-- Witness for C3: the demo filesystem loads successfully into
`demo_profile`, whose array length equals its `attribute_count`. -/
theorem C3_profile_record_array_witness :
    (aflib_profile_load fs_demo none).2 = some demo_profile ∧
    demo_profile.attributes.length = demo_profile.attribute_count :=
  ⟨by decide, (C3_profile_record_array fs_demo none demo_profile (by decide)).1⟩

/-- C4 counterexample: an attribute record carries no name.  Two
`af_attribute_t` records agreeing on all five declared fields (`attr_id`,
`type`, `flags`, `max_length`, `user_data`) are the same record, so there is
no further name component in which they could differ, contradicting "each
attribute record carries a name". -/
theorem C4_no_name_counterexample :
    ¬ ∃ a b : af_attribute_t,
      af_attribute_fields a = af_attribute_fields b ∧ a ≠ b := by
  rintro ⟨a, b, hab, hne⟩
  apply hne
  cases a; cases b
  simp only [af_attribute_fields, Prod.mk.injEq] at hab
  obtain ⟨h1, h2, h3, h4, h5⟩ := hab
  simp [h1, h2, h3, h4, h5]

/-- C4 (amended): every attribute in a loaded profile is a typed value
identified by a 16-bit id — each record carries a type and an id
representable in 16 bits (together with flags, max_length and user_data,
but no name) — and all attribute operations (lookup, get, set) identify
the attribute by that 16-bit id: a lookup hit has the queried id; a get
consults hubby's state only through the id's 16 low bits and any
notification it produces names that 16-bit id; a set request names the
attribute only by the id's 16 low bits. -/
theorem C4_attribute_identity (fs : String → Option af_profile_file)
    (filename : Option String) (p : af_profile_t)
    (h : (aflib_profile_load fs filename).2 = some p) :
    (∀ a ∈ p.attributes, a.attr_id < 2^16 ∧ a.type < 2^16) ∧
    (∀ i a, aflib_profile_find_attribute p i = some a → a.attr_id = i) ∧
    (∀ c store i, aflib_get_attribute c store i =
        aflib_get_attribute c store (i % 2^16) ∧
      ∀ n ∈ (aflib_get_attribute c store i).2, n.1 = i % 2^16 ∧ n.1 < 2^16) ∧
    (∀ i v, aflib_set_attribute_request i v =
        aflib_set_attribute_request (i % 2^16) v ∧
      (aflib_set_attribute_request i v).1 = i % 2^16 ∧
      (aflib_set_attribute_request i v).1 < 2^16) := by
  obtain ⟨file, -, -, -, hwf, rfl⟩ := aflib_profile_load_some_inv fs filename p h
  refine ⟨?_, ?_, ?_, ?_⟩
  · intro a ha
    obtain ⟨r, hr, rfl⟩ := List.mem_map.mp ha
    have hrwf := record_wf_spec r (by simpa using List.all_eq_true.mp hwf r hr)
    exact ⟨hrwf.1, hrwf.2.1⟩
  · intro i a hfind
    simpa using List.find?_some hfind
  · intro c store i
    have hmod : i % 2^16 % 2^16 = i % 2^16 := Nat.mod_mod_of_dvd i dvd_rfl
    constructor
    · unfold aflib_get_attribute
      rw [hmod]
    · intro n hn
      unfold aflib_get_attribute at hn
      by_cases hc : c
      · simp only [hc, if_true, Option.mem_def, Option.map_eq_some'] at hn
        obtain ⟨v, -, rfl⟩ := hn
        exact ⟨rfl, Nat.mod_lt i (by decide)⟩
      · simp [hc] at hn
  · intro i v
    have hmod : i % 2^16 % 2^16 = i % 2^16 := Nat.mod_mod_of_dvd i dvd_rfl
    exact ⟨by unfold aflib_set_attribute_request; rw [hmod], rfl,
      Nat.mod_lt i (by decide)⟩

/-- Witness for C4 (amended): the demo filesystem loads successfully, the
loaded attributes have 16-bit ids and types, and a get over the demo store
with an id past 2^16 identifies the same attribute as its 16-bit
reduction. -/
theorem C4_attribute_identity_witness :
    (aflib_profile_load fs_demo none).2 = some demo_profile ∧
    (∀ a ∈ demo_profile.attributes, a.attr_id < 2^16 ∧ a.type < 2^16) ∧
    aflib_get_attribute true demo_store 65537 =
      aflib_get_attribute true demo_store (65537 % 2^16) :=
  ⟨by decide,
   (C4_attribute_identity fs_demo none demo_profile (by decide)).1,
   ((C4_attribute_identity fs_demo none demo_profile
      (by decide)).2.2.1 true demo_store 65537).1⟩

/-- C5: the attribute value types are exactly the nine members of
`enum af_attribute_type` — boolean (1), signed 8/16/32/64-bit integers
(2..5), fixed-point 16.16 (6) and 32.32 (7), UTF-8 string (20) and byte
blob (21) — and every attribute of a successfully loaded profile has its
`type` field among them. -/
theorem C5_attribute_types (fs : String → Option af_profile_file)
    (filename : Option String) (p : af_profile_t)
    (h : (aflib_profile_load fs filename).2 = some p) :
    af_attribute_type_values = [1, 2, 3, 4, 5, 6, 7, 20, 21] ∧
    ∀ a ∈ p.attributes, a.type ∈ af_attribute_type_values := by
  obtain ⟨file, -, -, -, hwf, rfl⟩ := aflib_profile_load_some_inv fs filename p h
  refine ⟨rfl, ?_⟩
  intro a ha
  obtain ⟨r, hr, rfl⟩ := List.mem_map.mp ha
  exact (record_wf_spec r (by simpa using List.all_eq_true.mp hwf r hr)).2.2.2.2

/-- Witness for C5 on the demo profile. -/
theorem C5_attribute_types_witness :
    (aflib_profile_load fs_demo none).2 = some demo_profile ∧
    (af_attribute_type_values = [1, 2, 3, 4, 5, 6, 7, 20, 21] ∧
     ∀ a ∈ demo_profile.attributes, a.type ∈ af_attribute_type_values) :=
  ⟨by decide, C5_attribute_types fs_demo none demo_profile (by decide)⟩

/-- C6: the status-code type comprises exactly `AF_SUCCESS = 0` and the six
error codes with their header values; a status denotes success iff it is
zero, and every error code is negative. -/
theorem C6_status_codes :
    (∀ s : af_status_t,
      s ∈ [AF_SUCCESS, AF_ERROR_INVALID_PARAM, AF_ERROR_UNAVAILABLE,
           AF_ERROR_FILE_NOT_FOUND, AF_ERROR_PROFILE_CORRUPTED,
           AF_ERROR_PROFILE_TOO_BIG, AF_ERROR_PROFILE_TOO_NEW]) ∧
    ([AF_SUCCESS, AF_ERROR_INVALID_PARAM, AF_ERROR_UNAVAILABLE,
      AF_ERROR_FILE_NOT_FOUND, AF_ERROR_PROFILE_CORRUPTED,
      AF_ERROR_PROFILE_TOO_BIG, AF_ERROR_PROFILE_TOO_NEW].map
        af_status_t.toInt = [0, -6, -7, -21, -22, -23, -24]) ∧
    (∀ s : af_status_t, s.toInt = 0 ↔ s = AF_SUCCESS) ∧
    (∀ s : af_status_t, s = AF_SUCCESS ∨ s.toInt < 0) :=
  ⟨fun s => by cases s <;> decide, by decide,
   fun s => by cases s <;> decide, fun s => by cases s <;> decide⟩

/-- C7: when `aflib_profile_load` returns `AF_SUCCESS`, the profile
out-parameter is populated with the schema read from the file: one
attribute per file record, in order, with the id, type, flags (and
max_length) recorded in the file. -/
theorem C7_load_populates_schema (fs : String → Option af_profile_file)
    (filename : Option String)
    (h : (aflib_profile_load fs filename).1 = AF_SUCCESS) :
    ∃ p file, (aflib_profile_load fs filename).2 = some p ∧
      fs (filename.getD aflib_standard_profile_path) = some file ∧
      p.attribute_count = file.records.length ∧
      p.attributes.map (fun a => (a.attr_id, a.type, a.flags, a.max_length)) =
        file.records.map (fun r => (r.attr_id, r.type, r.flags, r.max_length)) := by
  have hsome := (aflib_profile_load_success_iff_some fs filename).mp h
  obtain ⟨p, hp⟩ := Option.ne_none_iff_exists'.mp hsome
  obtain ⟨file, hfs, -, -, -, hpe⟩ :=
    aflib_profile_load_some_inv fs filename p hp
  refine ⟨p, file, hp, hfs, ?_, ?_⟩
  · rw [hpe]
  · rw [hpe]
    simp [record_to_attribute]

/-- Witness for C7: the demo filesystem loads with `AF_SUCCESS` and the
populated profile matches the file's records. -/
theorem C7_load_populates_schema_witness :
    (aflib_profile_load fs_demo none).1 = AF_SUCCESS ∧
    ∃ p file, (aflib_profile_load fs_demo none).2 = some p ∧
      fs_demo (Option.getD none aflib_standard_profile_path) = some file ∧
      p.attribute_count = file.records.length ∧
      p.attributes.map (fun a => (a.attr_id, a.type, a.flags, a.max_length)) =
        file.records.map (fun r => (r.attr_id, r.type, r.flags, r.max_length)) :=
  ⟨by decide, C7_load_populates_schema fs_demo none (by decide)⟩

/-- C8: a value longer than `MAX_ATTRIBUTE_SIZE` (255) is not accepted by
the set-attribute entry points: `aflib_set_attribute_bytes` and
`aflib_set_attribute_str` return an error status, never `AF_SUCCESS`,
whatever the connection state. -/
theorem C8_oversized_value_rejected (connected : Bool)
    (attr_id value_len : Nat) (value : List Nat) (s : String)
    (h : MAX_ATTRIBUTE_SIZE < value_len) :
    aflib_set_attribute_bytes connected attr_id value_len value ≠ AF_SUCCESS ∧
    aflib_set_attribute_str connected attr_id value_len s ≠ AF_SUCCESS := by
  unfold aflib_set_attribute_str aflib_set_attribute_bytes
  rw [if_pos h]
  exact ⟨by decide, by decide⟩

/-- Witness for C8 at length 256. -/
theorem C8_oversized_value_rejected_witness :
    MAX_ATTRIBUTE_SIZE < 256 ∧
    (aflib_set_attribute_bytes true 1 256 [] ≠ AF_SUCCESS ∧
     aflib_set_attribute_str true 1 256 "x" ≠ AF_SUCCESS) :=
  ⟨by decide, C8_oversized_value_rejected true 1 256 [] "x" (by decide)⟩

/-- C9: calling `aflib_profile_load` with a `NULL` filename is accepted and
behaves exactly as loading the standard profile file location by explicit
name: same status and same loaded profile, on every filesystem. -/
theorem C9_null_filename_standard_path (fs : String → Option af_profile_file) :
    aflib_profile_load fs none =
      aflib_profile_load fs (some aflib_standard_profile_path) := rfl

/-- C10: after a successful load every attribute record's `user_data` is
`NULL` (`none`), and a `aflib_profile_find_attribute` call leaves the
profile state — every field of the profile and of its attribute records —
unchanged. -/
theorem C10_user_data_null_find_pure (fs : String → Option af_profile_file)
    (filename : Option String) (p : af_profile_t)
    (h : (aflib_profile_load fs filename).2 = some p) :
    (∀ a ∈ p.attributes, a.user_data = none) ∧
    (∀ i, aflib_profile_find_attribute_call p i =
      (aflib_profile_find_attribute p i, p)) := by
  obtain ⟨file, -, -, -, -, rfl⟩ := aflib_profile_load_some_inv fs filename p h
  refine ⟨?_, fun i => rfl⟩
  intro a ha
  obtain ⟨r, -, rfl⟩ := List.mem_map.mp ha
  rfl

/-- Witness for C10 on the demo profile. -/
theorem C10_user_data_null_find_pure_witness :
    (aflib_profile_load fs_demo none).2 = some demo_profile ∧
    (∀ a ∈ demo_profile.attributes, a.user_data = none) :=
  ⟨by decide, (C10_user_data_null_find_pure fs_demo none demo_profile (by decide)).1⟩
